import Mathlib

/-!
Shallow embedding of `desktop/libs/metadata/src/metadata/optimizer_client.py`
(the `OptimizerApi` client and the `OptimizerDataAdapter` helper).

Modelling conventions:
* Top-level JSON objects returned by `json.loads` are association lists
  `List (String × JVal)`; values other than strings are irrelevant to the
  client's logic and are collapsed into the `JVal.other` constructor.
* `json.loads` itself is an external library collaborator and is passed in
  as a parameter `parse : String → Option JObj` (`none` models a raised
  `ValueError` for malformed input).
* A subprocess run is a `ProcResult`: exit code 0 with captured output, or a
  `CalledProcessError` carrying the return code and the captured output.
* Python exceptions are pairs of a class tag and a popup title; the class
  hierarchy `OptimizerApiException < PopupException` of the source is mirrored
  by `isPopupException`.
-/

/-- Simplified JSON value: the client logic only ever inspects string values
(for the `status` key); every other JSON value is abstracted by `other`. -/
inductive JVal where
  | s (v : String)
  | other (n : Nat)
deriving DecidableEq, Repr

/-- A top-level JSON object (Python dict) as an association list. -/
abbrev JObj := List (String × JVal)

/-- Python `'k' in response` for a dict. -/
def hasKey (o : JObj) (k : String) : Bool :=
  o.any (fun p => p.1 == k)

/-- Exception classes appearing in the source file. -/
inductive ExcClass where
  | popupExc
  | optimizerApiExc
  | calledProcessError
  | restExc
deriving DecidableEq, Repr

/-- Mirrors the source class hierarchy: `class OptimizerApiException(PopupException)`,
so both are instances of the client-facing `PopupException`. -/
def isPopupException : ExcClass → Bool
  | ExcClass.popupExc => true
  | ExcClass.optimizerApiExc => true
  | ExcClass.calledProcessError => false
  | ExcClass.restExc => false

/-- A raised Python exception, reduced to its class and its popup title. -/
structure PyException where
  cls : ExcClass
  title : String
deriving DecidableEq, Repr

/-- Result of `subprocess.check_output`: normal termination with exit code 0
and captured output, or a raised `CalledProcessError` (non-zero return code,
with the captured output attached). -/
inductive ProcResult where
  | ok (output : String)
  | err (returncode : Int) (output : String)
deriving DecidableEq, Repr

/-- Outcome of `OptimizerApi._exec`: a returned response dict, a raised
exception, or an uncaught `json.loads` failure propagating. -/
inductive ExecOutcome where
  | ok (response : JObj)
  | raised (e : PyException)
  | parseFailure
deriving DecidableEq, Repr

/-- Python `s.split('\n')`, on the character list of the string. -/
def splitNl : List Char → List (List Char)
  | [] => [[]]
  | c :: rest =>
    let r := splitNl rest
    if c = '\n' then [] :: r
    else
      match r with
      | h :: t => (c :: h) :: t
      | [] => [[c]]

/-- Python `'\n'.join(lines)`. -/
def joinNl : List (List Char) → List Char
  | [] => []
  | [l] => l
  | l :: ls => l ++ '\n' :: joinNl ls

/-- `'\n'.join(e.output.split('\n')[3:])` from `OptimizerApi._exec`:
discard the first three lines of the captured output. -/
def stripThreeLines (out : String) : String :=
  (joinNl ((splitNl out.data).drop 3)).asString

/-- The fixed user-facing title used by every error path of the client. -/
def errorTitle : String := "Error while accessing Optimizer"

/-- Tail of `OptimizerApi._exec` after `data` has been computed:
`if data: response = json.loads(data); if 'status' not in response:
response['status'] = 'success'` with default `response = {'status': 'error'}`. -/
def finishExec (parse : String → Option JObj) (data : String) : ExecOutcome :=
  if data = "" then ExecOutcome.ok [("status", JVal.s ("error"))]
  else
    match parse data with
    | some o =>
        ExecOutcome.ok (if hasKey o ("status") then o else o ++ [("status", JVal.s ("success"))])
    | none => ExecOutcome.parseFailure

/-- `OptimizerApi._exec command args` given the result `proc` of the external
process run: on `CalledProcessError` with `command == 'upload'` and
`returncode == 1` the output with its first three lines discarded is used as
the data; any other `CalledProcessError` raises `OptimizerApiException` with
the fixed title; on exit code 0 the captured output is the data. -/
def execResponse (command : String) (parse : String → Option JObj) (proc : ProcResult) :
    ExecOutcome :=
  match proc with
  | ProcResult.ok out => finishExec parse out
  | ProcResult.err rc out =>
    if command = "upload" ∧ rc = 1 then finishExec parse (stripThreeLines out)
    else ExecOutcome.raised ⟨ExcClass.optimizerApiExc, errorTitle⟩

/-- `OptimizerApi.authenticate`: the HTTP POST (a collaborator, passed as its
result `post`) is returned on success; a `RestException` is wrapped into
`PopupException` with the fixed title. -/
def authenticate (post : Except Unit JObj) : Except PyException JObj :=
  match post with
  | Except.ok r => Except.ok r
  | Except.error _ => Except.error ⟨ExcClass.popupExc, errorTitle⟩

/-- `OptimizerApi.delete_workload`: same wrapping as `authenticate`. -/
def delete_workload (post : Except Unit JObj) : Except PyException JObj :=
  match post with
  | Except.ok r => Except.ok r
  | Except.error _ => Except.error ⟨ExcClass.popupExc, errorTitle⟩

/-- `OptimizerApi.get_status`: same wrapping as `authenticate`. -/
def get_status (post : Except Unit JObj) : Except PyException JObj :=
  match post with
  | Except.ok r => Except.ok r
  | Except.error _ => Except.error ⟨ExcClass.popupExc, errorTitle⟩

/-- A stub `json.loads` built from a finite table, used to instantiate the
`parse` parameter in witnesses and counterexamples. -/
def parseStub (table : List (String × JObj)) : String → Option JObj :=
  fun s => (table.find? (fun p => p.1 == s)).map (fun p => p.2)

/-- Python `str.lower()` on one character (the identifiers handled by this
client are ASCII). -/
def lowerChar (c : Char) : Char :=
  if 'A' ≤ c ∧ c ≤ 'Z' then Char.ofNat (c.toNat + 32) else c

/-- Python `str.lower()`. -/
def pyLower (s : String) : String :=
  (s.data.map lowerChar).asString

/-- Argument list built by `OptimizerApi.table_details`. -/
def table_details_args (tenant database_name table_name : String) : List String :=
  ["--tenant", tenant, "--db-name", pyLower database_name, "--table-name", pyLower table_name]

/-- Argument list built by `OptimizerApi.top_tables`. -/
def top_tables_args (tenant database_name : String) : List String :=
  ["--tenant", tenant, "--db-name", pyLower database_name]

/-- Argument list built by `OptimizerApi.query_compatibility`; note the source
passes both platform tags through without `.lower()`. -/
def query_compatibility_args (tenant source_platform target_platform query : String) :
    List String :=
  ["--tenant", tenant, "--source-platform", source_platform,
   "--target-platform", target_platform, "--query", query]

/-- Argument list built by `OptimizerApi.query_risk`. -/
def query_risk_args (tenant query : String) : List String :=
  ["--tenant", tenant, "--query", query]

/-- Argument list built by `OptimizerApi.similar_queries`; the platform tag is
passed through without `.lower()`. -/
def similar_queries_args (tenant source_platform query : String) : List String :=
  ["--tenant", tenant, "--source-platform", source_platform, "--query", query]

/-- Shared body of the four `top_*` accessors that honour `db_tables`:
`if db_tables:` (false for `None` and for an empty list) appends
`--db-table-list` followed by the entries, each lowercased. -/
def dbTablesSuffix (db_tables : Option (List String)) : List String :=
  match db_tables with
  | none => []
  | some l => if l = [] then [] else ("--db-table-list") :: l.map pyLower

/-- Argument list built by `OptimizerApi.top_filters`. -/
def top_filters_args (tenant : String) (db_tables : Option (List String)) : List String :=
  ["--tenant", tenant] ++ dbTablesSuffix db_tables

/-- Argument list built by `OptimizerApi.top_aggs`. -/
def top_aggs_args (tenant : String) (db_tables : Option (List String)) : List String :=
  ["--tenant", tenant] ++ dbTablesSuffix db_tables

/-- Argument list built by `OptimizerApi.top_columns`. -/
def top_columns_args (tenant : String) (db_tables : Option (List String)) : List String :=
  ["--tenant", tenant] ++ dbTablesSuffix db_tables

/-- Argument list built by `OptimizerApi.top_joins`. -/
def top_joins_args (tenant : String) (db_tables : Option (List String)) : List String :=
  ["--tenant", tenant] ++ dbTablesSuffix db_tables

/-- Argument list built by `OptimizerApi.top_databases`: the `db_tables`
parameter exists in the source signature but is never used. -/
def top_databases_args (tenant : String) (db_tables : Option (List String)) : List String :=
  ["--tenant", tenant]

/-- File-system state as the list of existing file names. Creating an existing
file leaves the state unchanged. -/
def fsCreate (name : String) (fs : List String) : List String :=
  if name ∈ fs then fs else name :: fs

/-- `os.remove` (also the implicit delete performed by closing a
`NamedTemporaryFile` with `delete=True`). -/
def fsRemove (name : String) (fs : List String) : List String :=
  fs.filter (fun f => ¬ f = name)

/-- The places where `OptimizerApi.upload` can raise: during CSV generation,
during manifest rendering, or inside `_exec` (subprocess / `RestException`). -/
inductive UploadFail where
  | csvGen
  | manifestRender
  | execCall
deriving DecidableEq, Repr

/-- The `try:` body of `OptimizerApi.upload` between the two temp-file
creations and the outer `finally:`. It reopens both temporary paths as real
files (`open(name, 'w+')`), runs CSV generation, manifest rendering and the
`_exec('upload', args)` call — any of which may raise — and whether it raises
or returns, performs no further file creation or deletion (the inner
`finally:` only calls `close()` on open handles, which does not delete). The
Bool records whether an exception escapes the body. -/
def upload_body (fail : Option UploadFail) (qname fname : String) (fs : List String) :
    Bool × List String :=
  let fs1 := fsCreate fname (fsCreate qname fs)
  (fail.isSome, fs1)

/-- `try ... finally ...` where the `finally` clause only transforms the file
system and the raised/returned status of the body is preserved. -/
def tryFinallyFS (body : List String → Bool × List String)
    (fin : List String → List String) (fs : List String) : Bool × List String :=
  let r := body fs
  (r.1, fin r.2)

/-- File-system effect of one `OptimizerApi.upload` call with temp names
`qname` (data file) and `fname` (manifest file):
1. `NamedTemporaryFile(...)` creates each file;
2. `.close()` deletes each (`delete=True` is the default);
3. the `try:` body reopens both and may raise at `fail`;
4. the outer `finally:` executes `os.remove` on both paths. -/
def upload_run (fail : Option UploadFail) (qname fname : String) (fs0 : List String) :
    Bool × List String :=
  let fsA := fsCreate fname (fsCreate qname fs0)
  let fsB := fsRemove fname (fsRemove qname fsA)
  tryFinallyFS (upload_body fail qname fname)
    (fun fs => fsRemove fname (fsRemove qname fs)) fsB

/-- Lowercase hexadecimal digits, as used by `str(uuid.UUID)`. -/
def hexCharsList : List Char :=
  ['0', '1', '2', '3', '4', '5', '6', '7', '8', '9'] ++ ['a', 'b', 'c', 'd', 'e', 'f']

/-- Hex digit of `n % 16`. -/
def hexDigit (n : Nat) : Char :=
  hexCharsList.getD (n % 16) '0'

/-- Byte `i` of the 16-byte random block feeding `uuid.uuid4()` (missing
entries read as 0; every entry is reduced mod 256). -/
def byteAt (bs : List Nat) (i : Nat) : Nat :=
  (bs.getD i 0) % 256

/-- Two hex digits of one byte, high nibble first. -/
def byteHex (b : Nat) : List Char :=
  [hexDigit (b / 16), hexDigit b]

/-- Version byte of an RFC 4122 version-4 UUID: keep the low nibble of random
byte 6, force the high nibble to `0x4`. -/
def uuidVersionByte (bs : List Nat) : Nat :=
  byteAt bs 6 % 16 + 64

/-- Variant byte: keep the low six bits of random byte 8, force the top two
bits to `10`. -/
def uuidVariantByte (bs : List Nat) : Nat :=
  byteAt bs 8 % 64 + 128

/-- Characters of `str(uuid.uuid4())` for the random block `bs`: 32 lowercase
hex digits in 8-4-4-4-12 groups separated by dashes, with the version and
variant bytes adjusted. -/
def uuid4chars (bs : List Nat) : List Char :=
  byteHex (byteAt bs 0) ++ byteHex (byteAt bs 1) ++ byteHex (byteAt bs 2) ++ byteHex (byteAt bs 3) ++
  '-' :: (byteHex (byteAt bs 4) ++ byteHex (byteAt bs 5)) ++
  '-' :: (byteHex (uuidVersionByte bs) ++ byteHex (byteAt bs 7)) ++
  '-' :: (byteHex (uuidVariantByte bs) ++ byteHex (byteAt bs 9)) ++
  '-' :: (byteHex (byteAt bs 10) ++ byteHex (byteAt bs 11) ++ byteHex (byteAt bs 12) ++
          byteHex (byteAt bs 13) ++ byteHex (byteAt bs 14) ++ byteHex (byteAt bs 15))

/-- `str(uuid.uuid4())` for the random block `bs`. -/
def uuid4str (bs : List Nat) : String :=
  (uuid4chars bs).asString

/-- Is `c` a lowercase hex digit? -/
def isHexChar (c : Char) : Bool :=
  hexCharsList.contains c

/-- Checks that a string is a textual RFC 4122 version-4 UUID: 36 characters,
dashes at positions 8, 13, 18 and 23, the character `4` at position 14, one of
`8`, `9`, `a`, `b` at position 19, and lowercase hex digits everywhere else. -/
def isValidUUIDv4 (s : String) : Bool :=
  match s.data with
  | a0 :: a1 :: a2 :: a3 :: a4 :: a5 :: a6 :: a7 :: '-' ::
    b0 :: b1 :: b2 :: b3 :: '-' ::
    '4' :: c1 :: c2 :: c3 :: '-' ::
    d0 :: d1 :: d2 :: d3 :: '-' ::
    e0 :: e1 :: e2 :: e3 :: e4 :: e5 :: e6 :: e7 :: e8 :: e9 :: e10 :: e11 :: [] =>
    ([a0, a1, a2, a3, a4, a5, a6, a7, b0, b1, b2, b3, c1, c2, c3, d1, d2, d3,
      e0, e1, e2, e3, e4, e5, e6, e7, e8, e9, e10, e11].all isHexChar)
    && (d0 == '8' || d0 == '9' || d0 == 'a' || d0 == 'b')
  | _ => false

/-- Python values appearing as rows of the `upload` input `data`: strings,
numeric literals (by their textual representation; `0.0` is `num ("0.0")`), and
tuples/lists of values. -/
inductive PyVal where
  | str (v : String)
  | num (v : String)
  | tup (fs : List PyVal)

/-- Python `len` on a row: defined for strings and tuples, a `TypeError`
(`none`) for numbers. -/
def sizedLen : PyVal → Option Nat
  | PyVal.str v => some v.length
  | PyVal.num _ => none
  | PyVal.tup fs => some fs.length

/-- `headers` entry of `OptimizerApi.UPLOAD['queries']`. -/
def UPLOAD_queries_headers : List String := ["SQL_ID", "ELAPSED_TIME", "SQL_FULLTEXT"]

/-- `headers` entry of `OptimizerApi.UPLOAD['table_stats']`. -/
def UPLOAD_table_stats_headers : List String := ["TABLE_NAME", "NUM_ROWS"]

/-- `headers` entry of `OptimizerApi.UPLOAD['cols_stats']` (lowercase in the
source, unlike the other two schemas). -/
def UPLOAD_cols_stats_headers : List String :=
  ["table_name", "column_name", "data_type", "num_distinct", "num_nulls", "avg_col_len"]

/-- `OptimizerApi.UPLOAD[data_type]['headers']`; `none` models the `KeyError`
raised for an unknown `data_type`. -/
def uploadHeaders : String → Option (List String)
  | "queries" => some UPLOAD_queries_headers
  | "table_stats" => some UPLOAD_table_stats_headers
  | "cols_stats" => some UPLOAD_cols_stats_headers
  | _ => none

/-- One synthesized row `[str(uuid.uuid4()), 0.0, q]` of `OptimizerDataAdapter`,
where `rnd i` is the random block consumed by the `i`-th `uuid.uuid4()` call. -/
def synthRow (rnd : Nat → List Nat) (i : Nat) (q : PyVal) : PyVal :=
  PyVal.tup [PyVal.str (uuid4str (rnd i)), PyVal.num ("0.0"), q]

/-- `OptimizerDataAdapter(data, data_type)`: returns the header list paired
with the row sequence. For the stats types the rows pass through unchanged;
for `queries`, `if data and len(data[0]) == 3` the rows pass through,
otherwise each row is replaced by `[str(uuid.uuid4()), 0.0, q]`. `Except.error`
models the uncaught `KeyError` (unknown `data_type`) or `TypeError`
(`len` of an unsized first row). -/
def OptimizerDataAdapter (rnd : Nat → List Nat) (data : List PyVal) (data_type : String) :
    Except Unit (List String × List PyVal) :=
  match uploadHeaders data_type with
  | none => Except.error ()
  | some headers =>
    if data_type = "table_stats" ∨ data_type = "cols_stats" then
      Except.ok (headers, data)
    else
      match data with
      | [] => Except.ok (headers, [])
      | d0 :: _ =>
        match sizedLen d0 with
        | none => Except.error ()
        | some n =>
          if n = 3 then Except.ok (headers, data)
          else Except.ok (headers, data.enum.map (fun p => synthRow rnd p.1 p.2))

/-- Common head of the three `file_headers` templates in `OptimizerApi.UPLOAD`,
verbatim up to and including the line opening the `headerFields` array. The
`%(...)s` placeholders are Python mapping-format slots; the `rowDelim` value is
the two characters backslash and `n`, as in the source's `"\\n"`. -/
def manifestPreamble : String :=
  "\x7b\n    \"fileLocation\": \"%(query_file)s\",\n    \"tenant\": \"%(tenant)s\",\n    \"fileName\": \"%(query_file_name)s\",\n    \"sourcePlatform\": \"%(source_platform)s\",\n    \"colDelim\": \",\",\n    \"rowDelim\": \"\\n\",\n    \"headerFields\": [\n"

/-- One element of the `headerFields` array, verbatim from the templates. -/
def headerFieldBlock (coltype name : String) : String :=
  "        \x7b\n            \"count\": 0,\n            \"coltype\": \"" ++ coltype ++
  "\",\n            \"use\": true,\n            \"tag\": \"\",\n            \"name\": \"" ++
  name ++ "\"\n        \x7d"

/-- Common tail of the three templates: closing the array and the object. -/
def manifestClose : String := "\n    ]\n\x7d"

/-- `OptimizerApi.UPLOAD['queries']['file_headers']`. -/
def UPLOAD_queries_file_headers : String :=
  manifestPreamble ++
  headerFieldBlock ("SQL_ID") ("SQL_ID") ++ ",\n" ++
  headerFieldBlock ("NONE") ("ELAPSED_TIME") ++ ",\n" ++
  headerFieldBlock ("SQL_QUERY") ("SQL_FULLTEXT") ++
  manifestClose

/-- `OptimizerApi.UPLOAD['table_stats']['file_headers']`. -/
def UPLOAD_table_stats_file_headers : String :=
  manifestPreamble ++
  headerFieldBlock ("NONE") ("TABLE_NAME") ++ ",\n" ++
  headerFieldBlock ("NONE") ("NUM_ROWS") ++
  manifestClose

/-- `OptimizerApi.UPLOAD['cols_stats']['file_headers']`. -/
def UPLOAD_cols_stats_file_headers : String :=
  manifestPreamble ++
  headerFieldBlock ("NONE") ("table_name") ++ ",\n" ++
  headerFieldBlock ("NONE") ("column_name") ++ ",\n" ++
  headerFieldBlock ("NONE") ("data_type") ++ ",\n" ++
  headerFieldBlock ("NONE") ("num_distinct") ++ ",\n" ++
  headerFieldBlock ("NONE") ("num_nulls") ++ ",\n" ++
  headerFieldBlock ("NONE") ("avg_col_len") ++
  manifestClose

/-- Fuel-driven worker for `replaceList`; every step consumes at least one
input character, so fuel equal to the input length is always enough. -/
def replaceListAux (pat rep : List Char) : Nat → List Char → List Char
  | 0, l => l
  | _ + 1, [] => []
  | fuel + 1, c :: rest =>
    if pat.isPrefixOf (c :: rest) ∧ pat ≠ [] then
      rep ++ replaceListAux pat rep fuel (rest.drop (pat.length - 1))
    else
      c :: replaceListAux pat rep fuel rest

/-- Replace every occurrence of `pat` (non-overlapping, left to right, the
replacement text is not rescanned) by `rep` in `l`. -/
def replaceList (pat rep l : List Char) : List Char :=
  replaceListAux pat rep l.length l

/-- The manifest rendering `data_headers % {...}` of `OptimizerApi.upload`:
substitute the four mapping-format slots. The templates contain each slot once
and the slots do not overlap, so sequential replacement agrees with Python's
one-pass `%` formatting whenever the substituted values contain no `%(`. -/
def renderManifest (tmpl query_file tenant query_file_name source_platform : String) : String :=
  (replaceList ("%(source_platform)s").data source_platform.data
    (replaceList ("%(query_file_name)s").data query_file_name.data
      (replaceList ("%(tenant)s").data tenant.data
        (replaceList ("%(query_file)s").data query_file.data tmpl.data)))).asString

/-- The nine characters introducing a `name` field value in a manifest. -/
def headerFieldNamePat : List Char := ['"', 'n', 'a', 'm', 'e', '"', ':', ' ', '"']

/-- The list of `headerFields[].name` values of a rendered manifest: every
maximal quote-delimited run of characters directly following `"name": "`. -/
def extractFieldNames : List Char → List String
  | [] => []
  | c :: rest =>
    if headerFieldNamePat.isPrefixOf (c :: rest) then
      ((rest.drop (headerFieldNamePat.length - 1)).takeWhile (fun ch => ¬ ch = '"')).asString ::
        extractFieldNames rest
    else
      extractFieldNames rest

/-- Every output of `hexDigit` is a lowercase hex digit. -/
lemma isHex_hexDigit (n : Nat) : isHexChar (hexDigit n) = true := by
  have h : n % 16 < 16 := Nat.mod_lt _ (by norm_num)
  have hall : ∀ m, m < 16 → isHexChar (hexCharsList.getD m '0') = true := by decide
  exact hall _ h

/-- The version byte always prints as `4` followed by a hex digit. -/
lemma byteHex_version (x : Nat) : byteHex (x % 16 + 64) = ['4', hexDigit x] := by
  unfold byteHex hexDigit
  have h1 : (x % 16 + 64) / 16 % 16 = 4 := by omega
  have h2 : (x % 16 + 64) % 16 = x % 16 := by omega
  rw [h1, h2]
  rfl

/-- The variant byte prints as one of the digits `8`–`b` followed by a hex
digit. -/
lemma byteHex_variant (x : Nat) :
    byteHex (x % 64 + 128) = [hexDigit (x % 64 / 16 + 8), hexDigit x] := by
  unfold byteHex hexDigit
  have h1 : (x % 64 + 128) / 16 % 16 = (x % 64 / 16 + 8) % 16 := by omega
  have h2 : (x % 64 + 128) % 16 = x % 16 := by omega
  rw [h1, h2]

/-- First digit of the printed variant byte is one of `8`, `9`, `a`, `b`. -/
lemma variantDigit_ok (x : Nat) :
    (hexDigit (x % 64 / 16 + 8) == '8' || hexDigit (x % 64 / 16 + 8) == '9' ||
     hexDigit (x % 64 / 16 + 8) == 'a' || hexDigit (x % 64 / 16 + 8) == 'b') = true := by
  have h : x % 64 / 16 < 4 := by omega
  have hall : ∀ m, m < 4 → (hexDigit (m + 8) == '8' || hexDigit (m + 8) == '9' ||
      hexDigit (m + 8) == 'a' || hexDigit (m + 8) == 'b') = true := by decide
  exact hall _ h

/-- The modelled `str(uuid.uuid4())` is a valid textual UUIDv4 for every
random block. -/
theorem uuid4str_valid (bs : List Nat) : isValidUUIDv4 (uuid4str bs) = true := by
  unfold uuid4str isValidUUIDv4
  unfold uuid4chars uuidVersionByte uuidVariantByte
  rw [byteHex_version (byteAt bs 6), byteHex_variant (byteAt bs 8)]
  simp only [byteHex]
  simp only [List.cons_append, List.nil_append, List.append_assoc, List.asString]
  simp only [List.all_cons, List.all_nil, isHex_hexDigit, Bool.true_and, Bool.and_true]
  exact variantDigit_ok (byteAt bs 8)

/-- Concrete upload output for the C1 counterexample: three banner lines
followed by one line of JSON. -/
def c1Out : String := "line1\nline2\nline3\n\x7b\"x\": \"1\"\x7d"

/-- Stub `json.loads` for the C1 counterexample, consistent with the real
parser on the only string it is applied to. -/
def c1Parse : String → Option JObj :=
  parseStub [("\x7b\"x\": \"1\"\x7d", [("x", JVal.s ("1"))])]

/-- C1 counterexample: for an upload exiting with code 1 whose salvaged JSON
has no `status` key, the returned response is NOT equal to the JSON parsed
from the output with its first three lines discarded — the client injects
`status: success` into it first. -/
theorem C1_counterexample :
    c1Parse (stripThreeLines c1Out) = some [("x", JVal.s ("1"))] ∧
    ¬ execResponse ("upload") c1Parse (ProcResult.err 1 c1Out) =
        ExecOutcome.ok [("x", JVal.s ("1"))] := by
  decide

/-- C1 (amended): for every process invocation where the command is `upload`
and the tool exits with code 1, if discarding the first three lines of the
captured output leaves a non-empty string that parses as a JSON object, the
call is a soft success: no exception is raised and the returned response is
that object with `status` set to `success` when the key is absent and
unchanged when it is present. -/
theorem C1_upload_soft_success (parse : String → Option JObj) (out : String) (o : JObj)
    (hne : ¬ stripThreeLines out = "") (hp : parse (stripThreeLines out) = some o) :
    execResponse ("upload") parse (ProcResult.err 1 out) =
      ExecOutcome.ok (if hasKey o ("status") then o else o ++ [("status", JVal.s ("success"))]) := by
  simp only [execResponse]
  rw [if_pos (⟨trivial, trivial⟩ : True ∧ True)]
  unfold finishExec
  rw [if_neg hne, hp]

/-- Concrete output and parser for the C1 witness. -/
def c1wParse : String → Option JObj :=
  parseStub [("\x7brest\x7d", [("status", JVal.s ("FINISHED"))])]

/-- Witness for `C1_upload_soft_success` at a concrete upload output. -/
theorem C1_upload_soft_success_witness :
    execResponse ("upload") c1wParse (ProcResult.err 1 ("a\nb\nc\n\x7brest\x7d")) =
      ExecOutcome.ok (if hasKey [("status", JVal.s ("FINISHED"))] "status"
        then [("status", JVal.s ("FINISHED"))]
        else [("status", JVal.s ("FINISHED"))] ++ [("status", JVal.s ("success"))]) :=
  C1_upload_soft_success c1wParse ("a\nb\nc\n\x7brest\x7d") [("status", JVal.s ("FINISHED"))]
    (by decide) (by decide)

/-- C2: for every process invocation exiting with code 0 whose non-empty
output parses as a JSON object, the response is the object with `status` set
to `success` when the key is absent, and the object unchanged when the key is
already present. -/
theorem C2_status_injection (command : String) (parse : String → Option JObj) (out : String)
    (o : JObj) (hne : ¬ out = "") (hp : parse out = some o) :
    (hasKey o ("status") = false →
        execResponse command parse (ProcResult.ok out) =
          ExecOutcome.ok (o ++ [("status", JVal.s ("success"))])) ∧
    (hasKey o ("status") = true →
        execResponse command parse (ProcResult.ok out) = ExecOutcome.ok o) := by
  simp only [execResponse]
  unfold finishExec
  rw [if_neg hne, hp]
  constructor
  · intro h
    simp [h]
  · intro h
    simp [h]

/-- Stub parser for the C2 witness. -/
def c2wParse : String → Option JObj :=
  parseStub [("\x7b\"workloadId\": \"w1\"\x7d", [("workloadId", JVal.s ("w1"))])]

/-- Witness for `C2_status_injection` at a concrete `get-tenant` output with
no `status` key. -/
theorem C2_status_injection_witness :
    execResponse ("get-tenant") c2wParse (ProcResult.ok ("\x7b\"workloadId\": \"w1\"\x7d")) =
      ExecOutcome.ok ([("workloadId", JVal.s ("w1"))] ++ [("status", JVal.s ("success"))]) :=
  (C2_status_injection ("get-tenant") c2wParse ("\x7b\"workloadId\": \"w1\"\x7d")
    [("workloadId", JVal.s ("w1"))] (by decide) (by decide)).1 (by decide)

/-- C3: every non-zero exit other than the upload/exit-1 case makes `_exec`
raise an `OptimizerApiException` titled `Error while accessing Optimizer` and
return no response; the HTTP wrappers `authenticate`, `get_status` and
`delete_workload` wrap any `RestException` into a `PopupException` with the
same title, and both exception classes are instances of the client-facing
`PopupException`. -/
theorem C3_transport_errors (command : String) (parse : String → Option JObj) (rc : Int)
    (out : String) (h : ¬ (command = "upload" ∧ rc = 1)) :
    execResponse command parse (ProcResult.err rc out) =
        ExecOutcome.raised ⟨ExcClass.optimizerApiExc, errorTitle⟩ ∧
    authenticate (Except.error ()) = Except.error ⟨ExcClass.popupExc, errorTitle⟩ ∧
    get_status (Except.error ()) = Except.error ⟨ExcClass.popupExc, errorTitle⟩ ∧
    delete_workload (Except.error ()) = Except.error ⟨ExcClass.popupExc, errorTitle⟩ ∧
    isPopupException ExcClass.optimizerApiExc = true ∧
    isPopupException ExcClass.popupExc = true := by
  refine ⟨?_, rfl, rfl, rfl, rfl, rfl⟩
  simp only [execResponse]
  rw [if_neg h]

/-- Stub parser for the C3 witness. -/
def c3wParse : String → Option JObj := parseStub []

/-- Witness for `C3_transport_errors`: a `get-top-tables` run exiting with
code 2. -/
theorem C3_transport_errors_witness :
    execResponse ("get-top-tables") c3wParse (ProcResult.err 2 ("boom")) =
      ExecOutcome.raised ⟨ExcClass.optimizerApiExc, errorTitle⟩ :=
  (C3_transport_errors ("get-top-tables") c3wParse 2 ("boom") (by decide)).1

/-- C8: a process invocation that completes without raising but captures no
output returns the default response `status: error` and does not raise — both
for a zero exit with empty output and for the upload soft-success path when
discarding the first three lines leaves nothing. -/
theorem C8_empty_output (command : String) (parse : String → Option JObj) (out : String)
    (h : stripThreeLines out = "") :
    execResponse command parse (ProcResult.ok ("")) =
      ExecOutcome.ok [("status", JVal.s ("error"))] ∧
    execResponse ("upload") parse (ProcResult.err 1 out) =
      ExecOutcome.ok [("status", JVal.s ("error"))] := by
  constructor
  · rfl
  · simp only [execResponse]
    rw [if_pos (⟨trivial, trivial⟩ : True ∧ True)]
    unfold finishExec
    rw [if_pos h]

/-- Stub parser for the C8 witness. -/
def c8wParse : String → Option JObj := parseStub []

/-- Witness for `C8_empty_output`: a two-line upload output, so that dropping
three lines leaves the empty string. -/
theorem C8_empty_output_witness :
    execResponse ("get-tenant") c8wParse (ProcResult.ok ("")) =
      ExecOutcome.ok [("status", JVal.s ("error"))] ∧
    execResponse ("upload") c8wParse (ProcResult.err 1 ("a\nb")) =
      ExecOutcome.ok [("status", JVal.s ("error"))] :=
  C8_empty_output ("get-tenant") c8wParse ("a\nb") (by decide)

/-- C4: after any `upload` call — returning normally or raising at CSV
generation, manifest rendering or the external call — neither of the two
temporary files created for the call exists in the final file-system state. -/
theorem C4_temp_files_removed (fail : Option UploadFail) (qname fname : String)
    (fs0 : List String) :
    ¬ qname ∈ (upload_run fail qname fname fs0).2 ∧
    ¬ fname ∈ (upload_run fail qname fname fs0).2 := by
  unfold upload_run tryFinallyFS upload_body
  constructor <;> simp [fsRemove, List.mem_filter]

/-- Fixed random supply used in the C5 counterexample. -/
def c5Rnd : Nat → List Nat :=
  fun _ => [0, 1, 2, 3, 4, 5, 6, 7, 8, 9, 10, 11, 12, 13, 14, 15]

/-- C5 counterexample: for the raw query string `abc` (length exactly 3) the
adapter passes the row through unchanged instead of replacing it by a
`(uuid, 0.0, text)` triple. -/
theorem C5_counterexample :
    OptimizerDataAdapter c5Rnd [PyVal.str ("abc")] ("queries") =
      Except.ok (UPLOAD_queries_headers, [PyVal.str ("abc")]) ∧
    ¬ PyVal.str ("abc") =
        PyVal.tup [PyVal.str (uuid4str (c5Rnd 0)), PyVal.num ("0.0"), PyVal.str ("abc")] :=
  ⟨rfl, nofun⟩

/-- C5 (amended): for `data_type = queries`, if the input is a sequence of raw
query strings whose first string does not have length 3, every row is replaced
by a 3-field row holding a freshly generated valid UUIDv4 string, `0.0` and
the original query text — in particular `data = ["SELECT 1"]` yields exactly
one such row — and if the input rows are already 3-element tuples, every row
is passed through unchanged. -/
theorem C5_queries_rows (rnd : Nat → List Nat) (q0 : String) (qs : List String)
    (hq : ¬ q0.length = 3) (rows : List PyVal) (hne : ¬ rows = [])
    (hall : ∀ r ∈ rows, ∃ x y z, r = PyVal.tup [x, y, z]) :
    OptimizerDataAdapter rnd ((q0 :: qs).map PyVal.str) ("queries") =
      Except.ok (UPLOAD_queries_headers,
        ((q0 :: qs).map PyVal.str).enum.map (fun p => synthRow rnd p.1 p.2)) ∧
    OptimizerDataAdapter rnd [PyVal.str ("SELECT 1")] ("queries") =
      Except.ok (UPLOAD_queries_headers,
        [PyVal.tup [PyVal.str (uuid4str (rnd 0)), PyVal.num ("0.0"), PyVal.str ("SELECT 1")]]) ∧
    isValidUUIDv4 (uuid4str (rnd 0)) = true ∧
    OptimizerDataAdapter rnd rows ("queries") = Except.ok (UPLOAD_queries_headers, rows) := by
  refine ⟨?_, rfl, uuid4str_valid (rnd 0), ?_⟩
  · simp only [List.map_cons, OptimizerDataAdapter, uploadHeaders, sizedLen]
    rw [if_neg (by decide), if_neg hq]
  · match rows, hne with
    | r0 :: rest, _ =>
      obtain ⟨x, y, z, hr⟩ := hall r0 (List.mem_cons_self r0 rest)
      subst hr
      simp only [OptimizerDataAdapter, uploadHeaders, sizedLen]
      rw [if_neg (by decide)]
      simp

/-- Fixed random supply used in the C5 witness. -/
def c5wRnd : Nat → List Nat :=
  fun i => [i, 31, 47, 63, 79, 95, 111, 127, 143, 159, 175, 191, 207, 223, 239, 255]

/-- Witness for `C5_queries_rows`: `data = ["SELECT 1"]` and a pass-through
3-tuple row `(id1, "5.2", "SELECT 2")`. -/
theorem C5_queries_rows_witness :
    OptimizerDataAdapter c5wRnd [PyVal.str ("SELECT 1")] ("queries") =
      Except.ok (UPLOAD_queries_headers,
        [PyVal.tup [PyVal.str (uuid4str (c5wRnd 0)), PyVal.num ("0.0"), PyVal.str ("SELECT 1")]]) ∧
    isValidUUIDv4 (uuid4str (c5wRnd 0)) = true ∧
    OptimizerDataAdapter c5wRnd
        [PyVal.tup [PyVal.str ("id1"), PyVal.str ("5.2"), PyVal.str ("SELECT 2")]] ("queries") =
      Except.ok (UPLOAD_queries_headers,
        [PyVal.tup [PyVal.str ("id1"), PyVal.str ("5.2"), PyVal.str ("SELECT 2")]]) := by
  have h := C5_queries_rows c5wRnd ("SELECT 1") [] (by decide)
    [PyVal.tup [PyVal.str ("id1"), PyVal.str ("5.2"), PyVal.str ("SELECT 2")]] (by simp)
    (by
      intro r hr
      simp only [List.mem_singleton] at hr
      exact ⟨PyVal.str ("id1"), PyVal.str ("5.2"), PyVal.str ("SELECT 2"), hr⟩)
  exact ⟨h.2.1, h.2.2.1, h.2.2.2⟩

/-- C9: for `data_type = queries` and non-empty data, the pass-through versus
synthesize decision depends only on whether Python `len` of the first element
equals 3: if it does (also for a 3-character query string, and whatever the
shape of the later rows) the whole sequence passes through unchanged;
otherwise a synthetic `(uuid, 0.0, row)` triple is generated for every row. -/
theorem C9_first_row_length_rule (rnd : Nat → List Nat) (d0 : PyVal) (rest : List PyVal)
    (n : Nat) (hl : sizedLen d0 = some n) :
    (n = 3 → OptimizerDataAdapter rnd (d0 :: rest) ("queries") =
        Except.ok (UPLOAD_queries_headers, d0 :: rest)) ∧
    (¬ n = 3 → OptimizerDataAdapter rnd (d0 :: rest) ("queries") =
        Except.ok (UPLOAD_queries_headers,
          (d0 :: rest).enum.map (fun p => synthRow rnd p.1 p.2))) := by
  constructor <;> intro h <;>
    · simp only [OptimizerDataAdapter, uploadHeaders, hl]
      rw [if_neg (by decide)]
      simp [h]

/-- Fixed random supply used in the C9 witness. -/
def c9Rnd : Nat → List Nat := fun i => [i]

/-- Witness for `C9_first_row_length_rule`: the first element is the
3-character string `abc`, later rows have other shapes, and the whole list
passes through unchanged. -/
theorem C9_first_row_length_rule_witness :
    OptimizerDataAdapter c9Rnd [PyVal.str ("abc"), PyVal.str ("SELECT 2 FROM t"),
        PyVal.tup [PyVal.str ("a"), PyVal.str ("b")]] ("queries") =
      Except.ok (UPLOAD_queries_headers, [PyVal.str ("abc"), PyVal.str ("SELECT 2 FROM t"),
        PyVal.tup [PyVal.str ("a"), PyVal.str ("b")]]) :=
  (C9_first_row_length_rule c9Rnd (PyVal.str ("abc"))
    [PyVal.str ("SELECT 2 FROM t"), PyVal.tup [PyVal.str ("a"), PyVal.str ("b")]] 3 rfl).1 rfl

/-- C6 counterexample: `query_compatibility` passes the platform tags through
as given — `Hive` is not lowercased — so not every string identifier passed to
the accessor operations is lowercased. -/
theorem C6_counterexample :
    query_compatibility_args ("tenant1") ("Hive") ("Impala") ("select 1") =
      ["--tenant", "tenant1", "--source-platform", "Hive", "--target-platform", "Impala",
       "--query", "select 1"] ∧
    ¬ query_compatibility_args ("tenant1") ("Hive") ("Impala") ("select 1") =
      ["--tenant", "tenant1", "--source-platform", pyLower ("Hive"), "--target-platform",
       pyLower ("Impala"), "--query", "select 1"] := by
  decide

/-- C6 (amended): database names, table names and every entry of a `db_tables`
list are lowercased before being placed into the issued command arguments —
in particular `table_details ("MyDB") ("MyTable")` issues
`--db-name mydb --table-name mytable` — while platform tags are passed
through unchanged. -/
theorem C6_identifier_lowercasing (tenant db table sp tp q : String) (dbts : List String)
    (hne : ¬ dbts = []) :
    table_details_args tenant db table =
      ["--tenant", tenant, "--db-name", pyLower db, "--table-name", pyLower table] ∧
    top_tables_args tenant db = ["--tenant", tenant, "--db-name", pyLower db] ∧
    top_filters_args tenant (some dbts) =
      ["--tenant", tenant, "--db-table-list"] ++ dbts.map pyLower ∧
    top_aggs_args tenant (some dbts) =
      ["--tenant", tenant, "--db-table-list"] ++ dbts.map pyLower ∧
    top_columns_args tenant (some dbts) =
      ["--tenant", tenant, "--db-table-list"] ++ dbts.map pyLower ∧
    top_joins_args tenant (some dbts) =
      ["--tenant", tenant, "--db-table-list"] ++ dbts.map pyLower ∧
    query_compatibility_args tenant sp tp q =
      ["--tenant", tenant, "--source-platform", sp, "--target-platform", tp, "--query", q] ∧
    similar_queries_args tenant sp q =
      ["--tenant", tenant, "--source-platform", sp, "--query", q] ∧
    table_details_args tenant ("MyDB") ("MyTable") =
      ["--tenant", tenant, "--db-name", "mydb", "--table-name", "mytable"] := by
  refine ⟨rfl, rfl, ?_, ?_, ?_, ?_, rfl, rfl, ?_⟩
  · simp [top_filters_args, dbTablesSuffix, hne]
  · simp [top_aggs_args, dbTablesSuffix, hne]
  · simp [top_columns_args, dbTablesSuffix, hne]
  · simp [top_joins_args, dbTablesSuffix, hne]
  · unfold table_details_args
    rw [show pyLower ("MyDB") = "mydb" from by decide,
        show pyLower ("MyTable") = "mytable" from by decide]

/-- Witness for `C6_identifier_lowercasing` at concrete identifiers with mixed
casing. -/
theorem C6_identifier_lowercasing_witness :
    top_filters_args ("t1") (some ["Db1.Tbl1", "db2.tbl2"]) =
      ["--tenant", "t1", "--db-table-list"] ++ (["Db1.Tbl1", "db2.tbl2"].map pyLower) ∧
    table_details_args ("t1") ("MyDB") ("MyTable") =
      ["--tenant", "t1", "--db-name", "mydb", "--table-name", "mytable"] := by
  obtain ⟨h1, h2, h3, h4, h5, h6, h7, h8, h9⟩ :=
    C6_identifier_lowercasing ("t1") "MyDB" "MyTable" "Hive" "Impala" "select 1"
      ["Db1.Tbl1", "db2.tbl2"] (by simp)
  exact ⟨h3, h9⟩

set_option maxRecDepth 80000 in
/-- C7: in the rendered manifest for `cols_stats` the `headerFields` name
values are exactly the six lowercase column names, for `table_stats` exactly
the two uppercase ones, and the per-schema header lists carry the same casing
verbatim. -/
theorem C7_manifest_header_names :
    extractFieldNames
        (renderManifest UPLOAD_cols_stats_file_headers ("/tmp/x1.log") ("tenant1")
          ("x1.log") ("hive")).data =
      ["table_name", "column_name", "data_type", "num_distinct", "num_nulls", "avg_col_len"] ∧
    extractFieldNames
        (renderManifest UPLOAD_table_stats_file_headers ("/tmp/x1.log") ("tenant1")
          ("x1.log") ("hive")).data =
      ["TABLE_NAME", "NUM_ROWS"] ∧
    UPLOAD_cols_stats_headers =
      ["table_name", "column_name", "data_type", "num_distinct", "num_nulls", "avg_col_len"] ∧
    UPLOAD_table_stats_headers = ["TABLE_NAME", "NUM_ROWS"] := by
  exact ⟨by decide, by decide, rfl, rfl⟩

/-- C10: `top_databases` issues only the `--tenant` argument, identically for
every value of its unused `db_tables` parameter, unlike `top_filters`,
`top_aggs`, `top_columns` and `top_joins`, which append `--db-table-list`
followed by the lowercased entries when `db_tables` is non-empty. -/
theorem C10_top_databases_ignores_db_tables (tenant : String)
    (dbt1 dbt2 : Option (List String)) (l : List String) (hne : ¬ l = []) :
    top_databases_args tenant dbt1 = ["--tenant", tenant] ∧
    top_databases_args tenant dbt1 = top_databases_args tenant dbt2 ∧
    top_filters_args tenant (some l) =
      ["--tenant", tenant, "--db-table-list"] ++ l.map pyLower ∧
    top_aggs_args tenant (some l) =
      ["--tenant", tenant, "--db-table-list"] ++ l.map pyLower ∧
    top_columns_args tenant (some l) =
      ["--tenant", tenant, "--db-table-list"] ++ l.map pyLower ∧
    top_joins_args tenant (some l) =
      ["--tenant", tenant, "--db-table-list"] ++ l.map pyLower := by
  refine ⟨rfl, rfl, ?_, ?_, ?_, ?_⟩
  · simp [top_filters_args, dbTablesSuffix, hne]
  · simp [top_aggs_args, dbTablesSuffix, hne]
  · simp [top_columns_args, dbTablesSuffix, hne]
  · simp [top_joins_args, dbTablesSuffix, hne]

/-- Witness for `C10_top_databases_ignores_db_tables` at concrete arguments. -/
theorem C10_top_databases_ignores_db_tables_witness :
    top_databases_args ("t2") (some ["DB.Tbl"]) = ["--tenant", "t2"] ∧
    top_databases_args ("t2") (some ["DB.Tbl"]) = top_databases_args ("t2") none ∧
    top_filters_args ("t2") (some ["DB.Tbl"]) =
      ["--tenant", "t2", "--db-table-list"] ++ (["DB.Tbl"].map pyLower) := by
  obtain ⟨h1, h2, h3, h4, h5, h6⟩ :=
    C10_top_databases_ignores_db_tables ("t2") (some ["DB.Tbl"]) none ["DB.Tbl"] (by simp)
  exact ⟨h1, h2, h3⟩
